import Mathlib

/-!
Verification development for the goldenhash data-collection and analysis
scripts (src/python and src/old_files).  The Python sources are shallowly
embedded: SQLite stores become Lean lists of rows, subprocess invocations
become oracle functions passed as parameters, exceptions become
`Option`/`Except` values, and Python float arithmetic in the sample-size
calculator is modelled over the real numbers.
-/

/-- Row of the `modular_hash_results` table created by
`collect_modular_data.py::setup_database` (the autoincrement id and the
timestamp column, which no script reads back, are omitted). -/
structure ModularResult where
  table_size : ℕ
  is_prime : Bool
  prime_high : ℤ
  prime_low : ℤ
  working_modulus : ℤ
  num_tests : ℤ
  unique_hashes : ℤ
  total_collisions : ℤ
  expected_collisions : ℚ
  collision_ratio : ℚ
  chi_square : ℚ
  avalanche_score : ℚ
  max_bucket_load : ℤ
  test_hash : ℤ
  performance_ns : ℚ
  factors : String
deriving DecidableEq

/-- Parsed JSON dictionary returned by the external executable, as consumed
by `collect_modular_data.py::save_result`.  A field that may be absent from
the dictionary is an `Option`; `is_prime` is modelled as the boolean it is
coerced to (the string-to-bool normalisation of the source is a no-op on
already-boolean values). -/
structure TestJson where
  table_size : Option ℕ
  is_prime : Option Bool
  prime_high : Option ℤ
  prime_low : Option ℤ
  working_modulus : Option ℤ
  num_tests : Option ℤ
  unique_hashes : Option ℤ
  total_collisions : Option ℤ
  expected_collisions : Option ℚ
  collision_ratio : Option ℚ
  chi_square : Option ℚ
  avalanche_score : Option ℚ
  max_bucket_load : Option ℤ
  test_vectors_abc : Option ℤ
  performance_ns_per_hash : Option ℚ
  factors : Option String
deriving DecidableEq

/-- Embedding of `collect_modular_data.py::save_result`.  A required field
(`data["x"]` subscript access) that is missing raises `KeyError`, modelled
by `none`: no row is produced.  `num_tests` uses `data.get("num_tests", 0)`,
`is_prime` uses `data.get("is_prime", False)` and the test hash uses
`data["test_vectors"]["abc"] if "abc" in data.get("test_vectors", {}) else 0`:
those three silently default when missing. -/
def save_result (data : TestJson) : Option ModularResult := do
  let table_size ← data.table_size
  let is_prime := data.is_prime.getD false
  let prime_high ← data.prime_high
  let prime_low ← data.prime_low
  let working_modulus ← data.working_modulus
  let num_tests := data.num_tests.getD 0
  let unique_hashes ← data.unique_hashes
  let total_collisions ← data.total_collisions
  let expected_collisions ← data.expected_collisions
  let collision_ratio ← data.collision_ratio
  let chi_square ← data.chi_square
  let avalanche_score ← data.avalanche_score
  let max_bucket_load ← data.max_bucket_load
  let test_hash := data.test_vectors_abc.getD 0
  let performance_ns ← data.performance_ns_per_hash
  let factors ← data.factors
  pure
    { table_size := table_size
      is_prime := is_prime
      prime_high := prime_high
      prime_low := prime_low
      working_modulus := working_modulus
      num_tests := num_tests
      unique_hashes := unique_hashes
      total_collisions := total_collisions
      expected_collisions := expected_collisions
      collision_ratio := collision_ratio
      chi_square := chi_square
      avalanche_score := avalanche_score
      max_bucket_load := max_bucket_load
      test_hash := test_hash
      performance_ns := performance_ns
      factors := factors }

/-- Conjunction of the presence of every field accessed by subscript in
`save_result` (the fields whose absence raises `KeyError`; `num_tests`,
`is_prime` and the test-vector hash are not among them). -/
def required_fields_present (data : TestJson) : Prop :=
  data.table_size.isSome = true ∧ data.prime_high.isSome = true ∧
  data.prime_low.isSome = true ∧ data.working_modulus.isSome = true ∧
  data.unique_hashes.isSome = true ∧ data.total_collisions.isSome = true ∧
  data.expected_collisions.isSome = true ∧ data.collision_ratio.isSome = true ∧
  data.chi_square.isSome = true ∧ data.avalanche_score.isSome = true ∧
  data.max_bucket_load.isSome = true ∧
  data.performance_ns_per_hash.isSome = true ∧ data.factors.isSome = true

instance (data : TestJson) : Decidable (required_fields_present data) := by
  unfold required_fields_present
  infer_instance

/-- Embedding of `collect_modular_data.py::ModularDataCollector.table_size_exists`:
`SELECT COUNT(*) ... WHERE table_size = ?` compared with 0. -/
def table_size_exists (store : List ModularResult) (n : ℕ) : Bool :=
  store.any (fun r => r.table_size == n)

/-- Mutable state of the main loop of `collect_modular_data.py::main`:
the database contents plus the `completed`/`skipped` counters; `exited`
records that the process was terminated by `sys.exit(1)` (or by an
uncaught `KeyError` inside `save_result`). -/
structure CollectState where
  store : List ModularResult
  completed : ℕ
  skipped : ℕ
  exited : Bool
deriving DecidableEq

/-- Embedding of the per-size loop body of `collect_modular_data.py::main`.
`run_test` abstracts `ModularDataCollector.run_test n num_tests` (the test
count is itself a function of `n`, so the invocation outcome is a function
of `n` alone): `none` is any of its failure modes (non-zero exit, timeout,
JSON parse error).  A size whose result already exists is skipped; a failed
invocation executes `sys.exit(1)`, stopping the whole campaign. -/
def collect_loop (run_test : ℕ → Option TestJson) :
    List ℕ → CollectState → CollectState
  | [], st => st
  | n :: rest, st =>
    if table_size_exists st.store n then
      collect_loop run_test rest { st with skipped := st.skipped + 1 }
    else
      match run_test n with
      | none => { st with exited := true }
      | some data =>
        match save_result data with
        | none => { st with exited := true }
        | some row =>
          collect_loop run_test rest
            { st with store := st.store ++ [row], completed := st.completed + 1 }

/-- Row of the `hash_tests` table as inserted by
`run_config_tests.py::main` (columns in source order). -/
structure ConfigRow where
  table_size : ℕ
  golden_prime : ℤ
  chi_square : ℚ
  collision_ratio : ℚ
  avalanche_score : ℚ
  distribution_uniformity : ℚ
  ns_per_hash : ℚ
  unique_hashes : ℤ
  total_collisions : ℤ
  max_bucket_load : ℤ
  bits_needed : ℤ
  prime_distance : ℤ
deriving DecidableEq

/-- State of the main loop of `run_config_tests.py::main`: inserted rows
plus the `successful`/`failed` counters. -/
structure ConfigState where
  store : List ConfigRow
  successful : ℕ
  failed : ℕ
deriving DecidableEq

/-- Embedding of the per-size loop of `run_config_tests.py::main`.
`run_single_test` abstracts `run_single_test(size, test_count)`; `none` is
any failure (non-zero exit, timeout, fewer than 12 CSV fields, exception).
A failure increments `failed` and the loop continues with the next size;
there is no existence check and no early exit. -/
def config_loop (run_single_test : ℕ → Option ConfigRow) :
    List ℕ → ConfigState → ConfigState
  | [], st => st
  | n :: rest, st =>
    match run_single_test n with
    | some row =>
      config_loop run_single_test rest
        { st with store := st.store ++ [row], successful := st.successful + 1 }
    | none =>
      config_loop run_single_test rest { st with failed := st.failed + 1 }

/-- Table sizes recorded in a modular store, in insertion order. -/
def sizes_of (store : List ModularResult) : List ℕ :=
  store.map (fun r => r.table_size)

/-- Truncation toward zero, the behaviour of Python `int()` on a float. -/
noncomputable def py_trunc (x : ℝ) : ℤ :=
  if 0 ≤ x then ⌊x⌋ else ⌈x⌉

/-- Expected number of collisions after `t` insertions into `n` buckets
under the uniform birthday model used by
`collect_modular_data.py::calculate_tests_for_collisions`:
`t − n·(1 − e^(−t/n))`.  The source computes it in Python floats; the
model uses exact real arithmetic. -/
noncomputable def expected_collisions_model (n : ℕ) (t : ℝ) : ℝ :=
  t - n * (1 - Real.exp (-(t / n)))

open Classical in
/-- Embedding of the bounded refinement loop of
`calculate_tests_for_collisions` (`for _ in range(10)`).  The first
component is the final value of `tests`; the second component is `true`
exactly when the loop exhausted its iteration budget without hitting the
`break` (the cap was reached). -/
noncomputable def refine_tests (n c : ℕ) : ℕ → ℤ → ℤ × Bool
  | 0, t => (t, true)
  | fuel + 1, t =>
    if expected_collisions_model n (t : ℝ) < 0.9 * c then
      refine_tests n c fuel (py_trunc ((t : ℝ) * 1.1))
    else if expected_collisions_model n (t : ℝ) > 1.1 * c then
      refine_tests n c fuel (py_trunc ((t : ℝ) * 0.95))
    else (t, false)

open Classical in
/-- Embedding of `collect_modular_data.py::calculate_tests_for_collisions`:
if the target `c` is at least the table size `n`, return `n`; otherwise
seed with `int(sqrt(2·n·c))`, refine for at most 10 iterations, and return
`max(tests, 100)`. -/
noncomputable def calculate_tests_for_collisions (n c : ℕ) : ℤ :=
  if c ≥ n then (n : ℤ)
  else
    max (refine_tests n c 10 (py_trunc (Real.sqrt ((2 * n * c : ℕ) : ℝ)))).1 100

open Classical in
/-- Whether the refinement loop of `calculate_tests_for_collisions` ran all
10 iterations without converging (in the `c ≥ n` branch the loop never
runs, so the cap is not reached). -/
noncomputable def tests_cap_reached (n c : ℕ) : Bool :=
  if c ≥ n then false
  else (refine_tests n c 10 (py_trunc (Real.sqrt ((2 * n * c : ℕ) : ℝ)))).2

/-- Embedding of the trial-division `is_prime` helper shared by
`generate_comprehensive_tests.py`, `analyze_modular_results.py` and
`generate_whitepaper_results.py`: special cases below 3, an evenness
check, then odd candidate divisors `3, 5, …` up to `int(sqrt(n))`
(`Nat.sqrt` models the float square root, exact in the ranges used). -/
def is_prime_py (n : ℕ) : Bool :=
  if n < 2 then false
  else if n = 2 then true
  else if n % 2 = 0 then false
  else (List.range' 3 ((Nat.sqrt n - 1) / 2) 2).all (fun i => n % i != 0)

/-- Embedding of `generate_comprehensive_tests.py::next_prime`.  The
source's `while not is_prime(n): n += 2` search (after rounding an even
argument up to the next odd) computes exactly the least prime `≥ n`, with
`2` returned for `n ≤ 2`; the model takes that least prime directly via
`Nat.find`, which also settles the loop's termination. -/
def next_prime (n : ℕ) : ℕ :=
  Nat.find (Nat.exists_infinite_primes n)

/-- Fibonacci loop of `generate_test_sizes` in
`generate_comprehensive_tests.py` (`while b < 10_000_000`, appending each
Fibonacci number and the next prime after it).  The loop runs about 35
iterations before `b` reaches the bound; the fuel of 64 used below is
never exhausted first. -/
def fib_prime_loop : ℕ → ℕ → ℕ → List ℕ
  | 0, _, _ => []
  | fuel + 1, a, b =>
    if b < 10000000 then b :: next_prime b :: fib_prime_loop fuel b (a + b)
    else []

/-- Fibonacci collection loop of `categorize_sizes` (same iteration as
`fib_prime_loop`, collecting only the Fibonacci numbers themselves). -/
def fib_loop : ℕ → ℕ → ℕ → List ℕ
  | 0, _, _ => []
  | fuel + 1, a, b =>
    if b < 10000000 then b :: fib_loop fuel b (a + b)
    else []

/-- Raw size list accumulated by
`generate_comprehensive_tests.py::generate_test_sizes` before
deduplication, sorting and range filtering, block by block in source
order.  The golden-ratio block divides by the literal
`phi = 1.6180339887498948482`; the float division and truncation are
modelled by exact rational division (the results agree except possibly
at representation boundaries, which the claims below do not depend on). -/
def raw_test_sizes : List ℕ :=
  ((List.range' 2 998).filter is_prime_py)
    ++ ((List.range' 6 18).flatMap (fun p =>
        [2 ^ p - 1, 2 ^ p, 2 ^ p + 1, next_prime (2 ^ p - 10), next_prime (2 ^ p + 10)]))
    ++ ((List.range' 2 6).flatMap (fun p =>
        [10 ^ p, next_prime (10 ^ p - 100), next_prime (10 ^ p), next_prime (10 ^ p + 100)]))
    ++ fib_prime_loop 64 1 1
    ++ (([2, 3, 5, 7, 13, 17, 19, 31] : List ℕ).flatMap (fun p =>
        if 2 ^ p - 1 < 10000000 then [2 ^ p - 1, 2 ^ p, 2 ^ p + 1] else []))
    ++ [97, 193, 389, 769, 1543, 3079, 6151, 12289, 24593,
        49157, 98317, 196613, 393241, 786433, 1572869, 3145739, 6291469]
    ++ [120, 360, 720, 1260, 1680, 2520, 5040, 10080,
        20160, 40320, 80640, 181440, 362880, 725760]
    ++ [127, 251, 509, 1021, 2039, 4093, 8191, 16381,
        32749, 65521, 131071, 262139, 524287, 1048573, 2097143, 4194301, 8388593]
    ++ ((List.range' 10 15).flatMap (fun i =>
        let golden := 2 ^ i * 10 ^ 19 / 16180339887498948482
        [golden - 1, golden, golden + 1, next_prime golden]))
    ++ ((List.range' 10 99 10).flatMap (fun i => [i * i - 1, i * i, i * i + 1]))

/-- Embedding of `generate_comprehensive_tests.py::generate_test_sizes`:
`sorted(list(set(sizes)))` becomes sorting the `Finset` of the raw list,
followed by the `50 ≤ s ≤ 10_000_000` range filter. -/
def generate_test_sizes : List ℕ :=
  (raw_test_sizes.toFinset.sort (· ≤ ·)).filter
    (fun s => 50 ≤ s && s ≤ 10000000)

/-- Embedding of the inner `is_prime` of
`run_massive_test.py::generate_all_test_sizes`, which trial-divides by
every integer from 2 up to `int(n ** 0.5)`. -/
def is_prime_massive (n : ℕ) : Bool :=
  if n < 2 then false
  else (List.range' 2 (Nat.sqrt n - 1)).all (fun i => n % i != 0)

/-- Deterministic part of `run_massive_test.py::generate_all_test_sizes`:
primes in `range(53, 10000)`, powers of two with neighbours for exponents
6–23, and powers of ten with neighbours for exponents 2–7. -/
def massive_det_sizes : List ℕ :=
  ((List.range' 53 9947).filter is_prime_massive)
    ++ ((List.range' 6 18).flatMap (fun p => [2 ^ p - 1, 2 ^ p, 2 ^ p + 1]))
    ++ ((List.range' 2 6).flatMap (fun p => [10 ^ p - 1, 10 ^ p, 10 ^ p + 1]))

/-- Embedding of `run_massive_test.py::generate_all_test_sizes`.  The
source appends 1000 values drawn from the process-global, unseeded
`random.randint(100, 1000000)`; the draw sequence is the explicit
parameter `rand`.  The result is `sorted(list(set(...)))` of the
deterministic part plus the draws. -/
def generate_all_test_sizes (rand : List ℕ) : List ℕ :=
  ((massive_det_sizes ++ rand).toFinset.sort (· ≤ ·))

/-- Category record built by
`generate_comprehensive_tests.py::categorize_sizes`. -/
structure SizeCategories where
  tiny : List ℕ
  small : List ℕ
  medium : List ℕ
  large : List ℕ
  huge : List ℕ
  gigantic : List ℕ
  powers_of_2 : List ℕ
  mersenne : List ℕ
  fibonacci : List ℕ
  highly_composite : List ℕ
deriving DecidableEq

/-- Category record with all categories empty, the initial dictionary of
`categorize_sizes`. -/
def empty_categories : SizeCategories :=
  { tiny := [], small := [], medium := [], large := [], huge := [],
    gigantic := [], powers_of_2 := [], mersenne := [], fibonacci := [],
    highly_composite := [] }

/-- Size-bucket block of the `categorize_sizes` loop body
(`tiny`/`small`/`medium`/`large`/`huge`/`gigantic`). -/
def size_bucket_step (cats : SizeCategories) (s : ℕ) : SizeCategories :=
  if s < 500 then { cats with tiny := cats.tiny ++ [s] }
  else if s < 5000 then { cats with small := cats.small ++ [s] }
  else if s < 50000 then { cats with medium := cats.medium ++ [s] }
  else if s < 500000 then { cats with large := cats.large ++ [s] }
  else if s < 5000000 then { cats with huge := cats.huge ++ [s] }
  else { cats with gigantic := cats.gigantic ++ [s] }

/-- Power-of-two block of the `categorize_sizes` loop body
(`if s & (s - 1) == 0`). -/
def power_step (cats : SizeCategories) (s : ℕ) : SizeCategories :=
  if s &&& (s - 1) = 0 then
    { cats with powers_of_2 := cats.powers_of_2 ++ [s] }
  else cats

/-- Mersenne block of the `categorize_sizes` loop body: the test
`s + 1 in categories["powers_of_2"]` runs against the list as updated so
far in this iteration (including `s` itself when `s` is a power of 2). -/
def mersenne_step (cats : SizeCategories) (s : ℕ) : SizeCategories :=
  if (s + 1) ∈ cats.powers_of_2 then
    { cats with mersenne := cats.mersenne ++ [s] }
  else cats

/-- Fibonacci block of the `categorize_sizes` loop body. -/
def fibonacci_step (fibs : List ℕ) (cats : SizeCategories) (s : ℕ) :
    SizeCategories :=
  if s ∈ fibs then { cats with fibonacci := cats.fibonacci ++ [s] }
  else cats

/-- Highly-composite block of the `categorize_sizes` loop body: the count
of divisors `i ≤ sqrt(s)` against the heuristic threshold
(`factor_count > s ** 0.25`, modelled exactly as `factor_count ^ 4 > s`). -/
def highly_composite_step (cats : SizeCategories) (s : ℕ) : SizeCategories :=
  if (((List.range' 1 (Nat.sqrt s)).filter (fun i => s % i == 0)).length) ^ 4 > s
  then { cats with highly_composite := cats.highly_composite ++ [s] }
  else cats

/-- Loop body of `categorize_sizes` for one size `s`: the source mutates
one dictionary through five independent if-blocks in this order. -/
def categorize_step (fibs : List ℕ) (cats : SizeCategories) (s : ℕ) :
    SizeCategories :=
  highly_composite_step
    (fibonacci_step fibs (mersenne_step (power_step (size_bucket_step cats s) s) s) s) s

/-- Embedding of `generate_comprehensive_tests.py::categorize_sizes`. -/
def categorize_sizes (sizes : List ℕ) : SizeCategories :=
  sizes.foldl (categorize_step (fib_loop 64 1 1)) empty_categories

/-- Error raised while analyzing: `np.min`/`np.max` on a zero-size array
(`ValueError`) or an integer division by zero (`ZeroDivisionError`). -/
inductive AnalyzeError where
  | emptyReduction
  | zeroDivision
deriving DecidableEq

/-- Model of `np.mean`: `NaN` (here `none`) on an empty list, otherwise
the exact arithmetic mean.  `np.mean` does not raise on empty input. -/
def np_mean (l : List ℚ) : Option ℚ :=
  if l.isEmpty then none else some (l.sum / l.length)

/-- Model of `np.min`, which raises `ValueError` on a zero-size array. -/
def np_min (l : List ℚ) : Except AnalyzeError ℚ :=
  match l with
  | [] => .error .emptyReduction
  | x :: xs => .ok (xs.foldl min x)

/-- Model of `np.max`, which raises `ValueError` on a zero-size array. -/
def np_max (l : List ℚ) : Except AnalyzeError ℚ :=
  match l with
  | [] => .error .emptyReduction
  | x :: xs => .ok (xs.foldl max x)

/-- Model of Python's `/` on numbers: `ZeroDivisionError` when the
denominator is zero. -/
def py_div (a b : ℚ) : Except AnalyzeError ℚ :=
  if b = 0 then .error .zeroDivision else .ok (a / b)

/-- Count from line 95 of `analyze_modular_results.py`:
`sum(1 for x in avalanche_scores if 0.45 <= x <= 0.55)`. -/
def good_avalanche_count (data : List ModularResult) : ℕ :=
  (data.map (fun r => r.avalanche_score)).countP
    (fun x => 0.45 ≤ x && x ≤ 0.55)

/-- Count from line 96 of `analyze_modular_results.py`:
`sum(1 for x in chi_squares if 0.9 <= x <= 1.1)`. -/
def good_chi_count (data : List ModularResult) : ℕ :=
  (data.map (fun r => r.chi_square)).countP (fun x => 0.9 ≤ x && x ≤ 1.1)

/-- Count from line 97 of `analyze_modular_results.py`:
`sum(1 for x in collision_ratios if x <= 1.2)`. -/
def good_collision_count (data : List ModularResult) : ℕ :=
  (data.map (fun r => r.collision_ratio)).countP (fun x => x ≤ 1.2)

/-- Quality pass rate printed on line 100 of `analyze_modular_results.py`:
`good_avalanche / len(data) * 100`. -/
def good_avalanche_pct (data : List ModularResult) : Except AnalyzeError ℚ := do
  let q ← py_div (good_avalanche_count data) data.length
  pure (q * 100)

/-- Quality pass rate printed on line 101 of `analyze_modular_results.py`. -/
def good_chi_pct (data : List ModularResult) : Except AnalyzeError ℚ := do
  let q ← py_div (good_chi_count data) data.length
  pure (q * 100)

/-- Quality pass rate printed on line 102 of `analyze_modular_results.py`. -/
def good_collision_pct (data : List ModularResult) : Except AnalyzeError ℚ := do
  let q ← py_div (good_collision_count data) data.length
  pure (q * 100)

/-- Table-size ranges of the pattern-analysis section of
`analyze_modular_results.py`. -/
def analysis_ranges : List (ℕ × ℕ) :=
  [(10000, 20000), (20000, 30000), (30000, 40000), (40000, 50000),
   (50000, 60000), (60000, 70000), (70000, 80000)]

/-- Report assembled by `analyze_modular_results.py::analyze_modular_data`
(the values it prints; the seaborn/matplotlib rendering of
`create_plots` is presentation and is omitted). -/
structure AnalyzeReport where
  total : ℕ
  prime_count : ℕ
  composite_count : ℕ
  avalanche_mean : Option ℚ
  avalanche_min : ℚ
  avalanche_max : ℚ
  chi_mean : Option ℚ
  chi_min : ℚ
  chi_max : ℚ
  collision_mean : Option ℚ
  collision_min : ℚ
  collision_max : ℚ
  prime_avalanche_mean : Option ℚ
  composite_avalanche_mean : Option ℚ
  avalanche_pass_pct : ℚ
  chi_pass_pct : ℚ
  collision_pass_pct : ℚ
  problem_sizes : List ℕ
  range_avalanche_means : List (ℕ × ℕ × Option ℚ)
deriving DecidableEq

/-- Embedding of `analyze_modular_results.py::analyze_modular_data` as a
pure read of the store rows.  Failure points appear in source order: the
`np.min`/`np.max` reductions of the overall-statistics block come before
the quality-percentage divisions, so on an empty store the function fails
with `emptyReduction` (the `ValueError` of line 64) before any division
is attempted.  The prime/composite and per-range sections are guarded by
emptiness tests in the source and cannot fail. -/
def analyze_modular_data (data : List ModularResult) :
    Except AnalyzeError AnalyzeReport := do
  let prime_data := data.filter (fun r => r.is_prime)
  let composite_data := data.filter (fun r => !r.is_prime)
  let avalanche_scores := data.map (fun r => r.avalanche_score)
  let chi_squares := data.map (fun r => r.chi_square)
  let collision_ratios := data.map (fun r => r.collision_ratio)
  let avalanche_min ← np_min avalanche_scores
  let avalanche_max ← np_max avalanche_scores
  let chi_min ← np_min chi_squares
  let chi_max ← np_max chi_squares
  let collision_min ← np_min collision_ratios
  let collision_max ← np_max collision_ratios
  let avalanche_pass ← good_avalanche_pct data
  let chi_pass ← good_chi_pct data
  let collision_pass ← good_collision_pct data
  pure
    { total := data.length
      prime_count := prime_data.length
      composite_count := composite_data.length
      avalanche_mean := np_mean avalanche_scores
      avalanche_min := avalanche_min
      avalanche_max := avalanche_max
      chi_mean := np_mean chi_squares
      chi_min := chi_min
      chi_max := chi_max
      collision_mean := np_mean collision_ratios
      collision_min := collision_min
      collision_max := collision_max
      prime_avalanche_mean :=
        np_mean (prime_data.map (fun r => r.avalanche_score))
      composite_avalanche_mean :=
        np_mean (composite_data.map (fun r => r.avalanche_score))
      avalanche_pass_pct := avalanche_pass
      chi_pass_pct := chi_pass
      collision_pass_pct := collision_pass
      problem_sizes :=
        (data.filter (fun r =>
          r.avalanche_score < 0.3 || r.avalanche_score > 0.7 ||
          r.chi_square < 0.5 || r.chi_square > 2.0 ||
          r.collision_ratio > 2.0)).map (fun r => r.table_size)
      range_avalanche_means :=
        analysis_ranges.map (fun p =>
          (p.1, p.2,
            np_mean ((data.filter (fun r =>
              p.1 ≤ r.table_size && r.table_size < p.2)).map
              (fun r => r.avalanche_score)))) }

/-- One step of the `defaultdict` grouping of
`analyze_duplicates.py::analyze_duplicates`: append the row to the group
of its `test_hash`, creating the group on first sight (insertion order is
preserved, as in CPython dicts). -/
def add_to_hash_groups (acc : List (ℤ × List ModularResult))
    (r : ModularResult) : List (ℤ × List ModularResult) :=
  if acc.any (fun g => g.1 == r.test_hash) then
    acc.map (fun g => if g.1 == r.test_hash then (g.1, g.2 ++ [r]) else g)
  else acc ++ [(r.test_hash, [r])]

/-- Grouping of store rows by sentinel `test_hash`
(`analyze_duplicates.py`, lines 21–32). -/
def hash_groups (rows : List ModularResult) :
    List (ℤ × List ModularResult) :=
  rows.foldl add_to_hash_groups []

/-- Groups with more than one member
(`duplicates = {h: tables for ... if len(tables) > 1}`). -/
def duplicate_groups (rows : List ModularResult) :
    List (ℤ × List ModularResult) :=
  (hash_groups rows).filter (fun g => 1 < g.2.length)

/-- Member table sizes of one hash group, in stored order (the SQL query
orders rows by `table_size`, so groups are ascending in practice). -/
def group_sizes (g : ℤ × List ModularResult) : List ℕ :=
  g.2.map (fun r => r.table_size)

/-- Test `all(t['is_prime'] for t in tables)` of `analyze_duplicates`. -/
def group_all_prime (g : ℤ × List ModularResult) : Bool :=
  g.2.all (fun r => r.is_prime)

/-- Test `all(sizes[i+1] - sizes[i] <= 10 for i in range(len(sizes)-1))`
of `analyze_duplicates`: only adjacent members are compared. -/
def group_consecutive (g : ℤ × List ModularResult) : Bool :=
  ((group_sizes g).zip (group_sizes g).tail).all
    (fun p => (p.2 : ℤ) - (p.1 : ℤ) ≤ 10)

/-- Flag condition `if all_prime and consecutive` of `analyze_duplicates`. -/
def group_flagged (g : ℤ × List ModularResult) : Bool :=
  group_all_prime g && group_consecutive g

/-- Counter `consecutive_prime_dups` of `analyze_duplicates`: flagged
duplicate groups (the source iterates the groups in order of first member
size, which does not change the count). -/
def consecutive_prime_dups (rows : List ModularResult) : ℕ :=
  ((duplicate_groups rows).filter group_flagged).length

/-- Spec-side predicate, written from the claim's words rather than the
source: all member sizes of the group are mutually within distance 10 of
one another. -/
def group_mutually_close (g : ℤ × List ModularResult) : Bool :=
  (group_sizes g).all (fun a =>
    (group_sizes g).all (fun b => (a : ℤ) - (b : ℤ) ≤ 10))

/-- Concrete store row used by concrete campaign scenarios. -/
def sample_row (n : ℕ) : ModularResult :=
  { table_size := n, is_prime := true, prime_high := 0, prime_low := 0,
    working_modulus := 0, num_tests := 0, unique_hashes := 0,
    total_collisions := 0, expected_collisions := 0, collision_ratio := 1,
    chi_square := 1, avalanche_score := 1/2, max_bucket_load := 1,
    test_hash := 0, performance_ns := 1, factors := "" }

/-- Concrete fully-populated executable response; `save_result` turns it
into exactly `sample_row n`. -/
def sample_json (n : ℕ) : TestJson :=
  { table_size := some n, is_prime := some true, prime_high := some 0,
    prime_low := some 0, working_modulus := some 0, num_tests := some 0,
    unique_hashes := some 0, total_collisions := some 0,
    expected_collisions := some 0, collision_ratio := some 1,
    chi_square := some 1, avalanche_score := some (1/2),
    max_bucket_load := some 1, test_vectors_abc := some 0,
    performance_ns_per_hash := some 1, factors := some "" }

/-- Oracle that succeeds on every size. -/
def ok_oracle : ℕ → Option TestJson := fun n => some (sample_json n)

/-- Oracle that fails on size 6 and succeeds on every other size. -/
def cex_oracle : ℕ → Option TestJson :=
  fun n => if n = 6 then none else some (sample_json n)

lemma config_loop_counts (f : ℕ → Option ConfigRow) :
    ∀ (l : List ℕ) (st : ConfigState),
      (config_loop f l st).successful
          = st.successful + l.countP (fun n => (f n).isSome) ∧
      (config_loop f l st).failed
          = st.failed + l.countP (fun n => (f n).isNone) := by
  intro l
  induction l with
  | nil => intro st; simp [config_loop]
  | cons n rest ih =>
    intro st
    rcases hf : f n with _ | row
    · have h := ih { st with failed := st.failed + 1 }
      simp only [config_loop, hf] at h ⊢
      rw [h.1, h.2]
      simp [List.countP_cons, hf]
      omega
    · have h := ih { st with store := st.store ++ [row], successful := st.successful + 1 }
      simp only [config_loop, hf] at h ⊢
      rw [h.1, h.2]
      simp [List.countP_cons, hf]
      omega

/-- C1 (amended): in `run_config_tests.py` every size in the list is
attempted, each failure only increments the `failed` counter and the
campaign continues — the per-item counters always satisfy
`successful = #successes` and `failed = #failures` over the whole list; in
`collect_modular_data.py`, by contrast, the first failed invocation of an
unrecorded size terminates the whole process via `sys.exit(1)`, leaving
the remaining sizes unattempted and the state otherwise unchanged. -/
theorem failure_isolation_amended :
    (∀ (f : ℕ → Option ConfigRow) (l : List ℕ) (st : ConfigState),
      (config_loop f l st).successful
          = st.successful + l.countP (fun n => (f n).isSome) ∧
      (config_loop f l st).failed
          = st.failed + l.countP (fun n => (f n).isNone)) ∧
    (∀ (f : ℕ → Option TestJson) (n : ℕ) (l : List ℕ) (st : CollectState),
      table_size_exists st.store n = false → f n = none →
      collect_loop f (n :: l) st = { st with exited := true }) := by
  constructor
  · exact fun f l st => config_loop_counts f l st
  · intro f n l st h1 h2
    simp [collect_loop, h1, h2]

/-- C1 witness: concrete one-item campaign with a failing invocation. -/
theorem failure_isolation_witness :
    table_size_exists ([] : List ModularResult) 5 = false ∧
    (fun _ : ℕ => (none : Option TestJson)) 5 = none ∧
    collect_loop (fun _ => none) [5]
        { store := [], completed := 0, skipped := 0, exited := false }
      = { store := [], completed := 0, skipped := 0, exited := true } :=
  ⟨rfl, rfl,
    failure_isolation_amended.2 (fun _ => none) 5 []
      { store := [], completed := 0, skipped := 0, exited := false } rfl rfl⟩

/-- C1 counterexample: the claim says no single item's failure ever
terminates the campaign or the process, but in `collect_modular_data.py`
one failed size makes the orchestrator execute `sys.exit(1)`. -/
theorem single_failure_exits_process :
    (collect_loop (fun _ => none) [5]
      { store := [], completed := 0, skipped := 0, exited := false }).exited
      = true := by
  decide

/-- C4: when the collision target is at least the table size, the
calculator returns the table size itself, before any floating-point work
and without applying the minimum-tests floor. -/
theorem calculator_caps_at_table_size (n c : ℕ) (h : n ≤ c) :
    calculate_tests_for_collisions n c = n := by
  unfold calculate_tests_for_collisions
  rw [if_pos h]

/-- C4 witness: `N = 5 ≤ C = 10` yields exactly `T = 5` (not the floor
value 100). -/
theorem calculator_caps_witness :
    5 ≤ 10 ∧ calculate_tests_for_collisions 5 10 = 5 :=
  ⟨by norm_num, calculator_caps_at_table_size 5 10 (by norm_num)⟩

lemma size_bucket_step_powers (cats : SizeCategories) (s : ℕ) :
    (size_bucket_step cats s).powers_of_2 = cats.powers_of_2 := by
  unfold size_bucket_step
  split_ifs <;> rfl

lemma size_bucket_step_mersenne (cats : SizeCategories) (s : ℕ) :
    (size_bucket_step cats s).mersenne = cats.mersenne := by
  unfold size_bucket_step
  split_ifs <;> rfl

lemma power_step_powers (cats : SizeCategories) (s : ℕ) :
    (power_step cats s).powers_of_2 =
      if s &&& (s - 1) = 0 then cats.powers_of_2 ++ [s]
      else cats.powers_of_2 := by
  unfold power_step
  split_ifs <;> rfl

lemma power_step_mersenne (cats : SizeCategories) (s : ℕ) :
    (power_step cats s).mersenne = cats.mersenne := by
  unfold power_step
  split_ifs <;> rfl

lemma mersenne_step_powers (cats : SizeCategories) (s : ℕ) :
    (mersenne_step cats s).powers_of_2 = cats.powers_of_2 := by
  unfold mersenne_step
  split_ifs <;> rfl

lemma mersenne_step_mersenne (cats : SizeCategories) (s : ℕ)
    (h : (s + 1) ∉ cats.powers_of_2) :
    (mersenne_step cats s).mersenne = cats.mersenne := by
  unfold mersenne_step
  rw [if_neg h]

lemma fibonacci_step_powers (fibs : List ℕ) (cats : SizeCategories) (s : ℕ) :
    (fibonacci_step fibs cats s).powers_of_2 = cats.powers_of_2 := by
  unfold fibonacci_step
  split_ifs <;> rfl

lemma fibonacci_step_mersenne (fibs : List ℕ) (cats : SizeCategories) (s : ℕ) :
    (fibonacci_step fibs cats s).mersenne = cats.mersenne := by
  unfold fibonacci_step
  split_ifs <;> rfl

lemma highly_composite_step_powers (cats : SizeCategories) (s : ℕ) :
    (highly_composite_step cats s).powers_of_2 = cats.powers_of_2 := by
  unfold highly_composite_step
  split_ifs <;> rfl

lemma highly_composite_step_mersenne (cats : SizeCategories) (s : ℕ) :
    (highly_composite_step cats s).mersenne = cats.mersenne := by
  unfold highly_composite_step
  split_ifs <;> rfl

lemma categorize_step_powers (fibs : List ℕ) (cats : SizeCategories) (s : ℕ) :
    (categorize_step fibs cats s).powers_of_2 =
      if s &&& (s - 1) = 0 then cats.powers_of_2 ++ [s]
      else cats.powers_of_2 := by
  unfold categorize_step
  rw [highly_composite_step_powers, fibonacci_step_powers, mersenne_step_powers,
    power_step_powers, size_bucket_step_powers]

lemma categorize_step_mersenne (fibs : List ℕ) (cats : SizeCategories) (s : ℕ)
    (h : (s + 1) ∉ (if s &&& (s - 1) = 0 then cats.powers_of_2 ++ [s]
      else cats.powers_of_2)) :
    (categorize_step fibs cats s).mersenne = cats.mersenne := by
  unfold categorize_step
  have hp : (s + 1) ∉ (power_step (size_bucket_step cats s) s).powers_of_2 := by
    rw [power_step_powers, size_bucket_step_powers]
    exact h
  rw [highly_composite_step_mersenne, fibonacci_step_mersenne,
    mersenne_step_mersenne _ _ hp, power_step_mersenne, size_bucket_step_mersenne]

lemma categorize_fold_mersenne (fibs : List ℕ) :
    ∀ (l : List ℕ) (cats : SizeCategories),
      List.Sorted (· < ·) l →
      (∀ x ∈ cats.powers_of_2, ∀ y ∈ l, x < y) →
      (l.foldl (categorize_step fibs) cats).mersenne = cats.mersenne := by
  intro l
  induction l with
  | nil => intro cats _ _; rfl
  | cons s rest ih =>
    intro cats hsort hinv
    have hhead : ∀ y ∈ rest, s < y := (List.sorted_cons.mp hsort).1
    have hlt : ∀ x ∈ cats.powers_of_2, x < s :=
      fun x hx => hinv x hx s (List.mem_cons_self s rest)
    have hnot : (s + 1) ∉ (if s &&& (s - 1) = 0 then cats.powers_of_2 ++ [s]
        else cats.powers_of_2) := by
      split
      · intro hmem
        rcases List.mem_append.mp hmem with hmem | hmem
        · exact absurd (hlt _ hmem) (by omega)
        · simp at hmem
      · intro hmem
        exact absurd (hlt _ hmem) (by omega)
    rw [List.foldl_cons]
    rw [ih (categorize_step fibs cats s) (List.sorted_cons.mp hsort).2 ?_]
    · exact categorize_step_mersenne fibs cats s hnot
    · intro x hx y hy
      rw [categorize_step_powers] at hx
      have hsy : s < y := hhead y hy
      revert hx
      split
      · intro hx
        rcases List.mem_append.mp hx with hx | hx
        · exact lt_trans (hlt x hx) hsy
        · simp at hx
          omega
      · intro hx
        exact lt_trans (hlt x hx) hsy

/-- C10: processed in strictly increasing order, no size is ever tagged
Mersenne — the membership test `s + 1 in categories["powers_of_2"]` looks
at the powers of two accumulated so far (all `≤ s`), so it never holds. -/
theorem mersenne_category_always_empty (sizes : List ℕ)
    (h : List.Sorted (· < ·) sizes) :
    (categorize_sizes sizes).mersenne = [] := by
  unfold categorize_sizes
  rw [categorize_fold_mersenne _ sizes empty_categories h (by simp [empty_categories])]
  rfl

/-- C10 witness: the sorted input `[3, 7, 8]` contains the true Mersenne
number 7 = 2³ − 1, yet the Mersenne category comes back empty. -/
theorem mersenne_category_witness :
    List.Sorted (· < ·) [3, 7, 8] ∧ (categorize_sizes [3, 7, 8]).mersenne = [] :=
  ⟨by decide, mersenne_category_always_empty [3, 7, 8] (by decide)⟩

lemma table_size_exists_true_iff (store : List ModularResult) (n : ℕ) :
    table_size_exists store n = true ↔ n ∈ sizes_of store := by
  simp only [table_size_exists, List.any_eq_true, beq_iff_eq, sizes_of,
    List.mem_map]

lemma table_size_exists_false_iff (store : List ModularResult) (n : ℕ) :
    table_size_exists store n = false ↔ n ∉ sizes_of store := by
  constructor
  · intro h hmem
    have htrue := (table_size_exists_true_iff store n).mpr hmem
    rw [h] at htrue
    exact Bool.false_ne_true htrue
  · intro h
    cases htv : table_size_exists store n
    · rfl
    · exact absurd ((table_size_exists_true_iff store n).mp htv) h

lemma table_size_exists_append_false (store : List ModularResult)
    (r : ModularResult) (n : ℕ)
    (h : table_size_exists (store ++ [r]) n = false) :
    table_size_exists store n = false := by
  rw [table_size_exists_false_iff] at h ⊢
  intro hmem
  exact h (by simp [sizes_of] at hmem ⊢; exact Or.inl hmem)

lemma collect_loop_resume (f : ℕ → Option TestJson) :
    ∀ (l : List ℕ) (st : CollectState),
      (sizes_of st.store).Nodup → st.exited = false →
      (∀ n ∈ l, table_size_exists st.store n = false →
        ∃ row, (f n).bind save_result = some row ∧ row.table_size = n) →
      (collect_loop f l st).exited = false ∧
      (sizes_of (collect_loop f l st).store).Nodup ∧
      (∀ m, m ∈ sizes_of (collect_loop f l st).store ↔
        m ∈ sizes_of st.store ∨ m ∈ l) ∧
      ∃ new, (collect_loop f l st).store = st.store ++ new ∧
        ∀ r ∈ new, r.table_size ∈ l ∧ r.table_size ∉ sizes_of st.store := by
  intro l
  induction l with
  | nil =>
    intro st hnd hex _
    refine ⟨hex, hnd, by simp [collect_loop], [], by simp [collect_loop], by simp⟩
  | cons n rest ih =>
    intro st hnd hex hsucc
    by_cases hmem : table_size_exists st.store n = true
    · have hstep : collect_loop f (n :: rest) st
          = collect_loop f rest { st with skipped := st.skipped + 1 } := by
        simp only [collect_loop]
        rw [if_pos hmem]
      have ihr := ih { st with skipped := st.skipped + 1 } hnd hex
        (fun m hm hnot => hsucc m (List.mem_cons_of_mem n hm) hnot)
      rw [hstep]
      obtain ⟨hex2, hnd2, hmm, new, hstore, hnew⟩ := ihr
      refine ⟨hex2, hnd2, fun m => ?_, new, hstore, fun r hr =>
        ⟨List.mem_cons_of_mem n (hnew r hr).1, (hnew r hr).2⟩⟩
      rw [hmm]
      constructor
      · rintro (hm | hm)
        · exact Or.inl hm
        · exact Or.inr (List.mem_cons_of_mem n hm)
      · rintro (hm | hm)
        · exact Or.inl hm
        · rcases List.mem_cons.mp hm with rfl | hm
          · exact Or.inl ((table_size_exists_true_iff st.store m).mp hmem)
          · exact Or.inr hm
    · have hfalse : table_size_exists st.store n = false :=
        Bool.eq_false_iff.mpr hmem
      obtain ⟨row, hrow, hts⟩ := hsucc n (List.mem_cons_self n rest) hfalse
      obtain ⟨data, hdata, hsave⟩ : ∃ d, f n = some d ∧ save_result d = some row := by
        rcases hfn : f n with _ | d
        · rw [hfn] at hrow
          simp at hrow
        · rw [hfn] at hrow
          exact ⟨d, rfl, hrow⟩
      have hstep : collect_loop f (n :: rest) st
          = collect_loop f rest
            { st with store := st.store ++ [row], completed := st.completed + 1 } := by
        simp only [collect_loop, hdata, hsave]
        rw [if_neg (by simp [hfalse])]
      have hnotmem : n ∉ sizes_of st.store :=
        (table_size_exists_false_iff st.store n).mp hfalse
      have hnd2 : (sizes_of (st.store ++ [row])).Nodup := by
        simp only [sizes_of, List.map_append, List.map_cons, List.map_nil]
        rw [List.nodup_append]
        refine ⟨hnd, List.nodup_singleton _, ?_⟩
        intro a ha hb
        simp only [List.mem_singleton] at hb
        rw [hb, hts] at ha
        exact hnotmem ha
      have ihr := ih { st with store := st.store ++ [row], completed := st.completed + 1 }
        hnd2 hex (fun m hm hnot =>
          hsucc m (List.mem_cons_of_mem n hm) (table_size_exists_append_false _ _ _ hnot))
      rw [hstep]
      obtain ⟨hex2, hnd3, hmm, new, hstore, hnew⟩ := ihr
      refine ⟨hex2, hnd3, fun m => ?_, row :: new, by simpa using hstore, ?_⟩
      · rw [hmm]
        simp only [sizes_of, List.map_append, List.map_cons, List.map_nil,
          List.mem_append, List.mem_cons, List.mem_singleton]
        constructor
        · rintro ((hm | hm | hm) | hm)
          · exact Or.inl hm
          · rw [hm, hts]
            exact Or.inr (Or.inl rfl)
          · simp at hm
          · exact Or.inr (Or.inr hm)
        · rintro (hm | (hm | hm))
          · exact Or.inl (Or.inl hm)
          · rw [hm, ← hts]
            exact Or.inl (Or.inr (by simp))
          · exact Or.inr hm
      · intro r hr
        rcases List.mem_cons.mp hr with rfl | hr
        · exact ⟨by rw [hts]; exact List.mem_cons_self n rest, by rw [hts]; exact hnotmem⟩
        · refine ⟨List.mem_cons_of_mem n (hnew r hr).1, fun hc => ?_⟩
          exact (hnew r hr).2 (by simp [sizes_of] at hc ⊢; exact Or.inl hc)

/-- C2 (amended): running the campaign again over a size list against a
store whose recorded sizes are distinct, assuming every attempted
unrecorded size succeeds (if any attempted size fails, the process exits
and later unset sizes stay unprocessed — see the counterexample), the run
does not exit, every size with an existing Result is skipped and gains no
second row (the old store is a prefix and every new row's size was not
recorded before), every size without one is processed and recorded, and
the final store holds exactly one Result per size that succeeded. -/
theorem resume_processes_unset_sizes_amended (f : ℕ → Option TestJson)
    (l : List ℕ) (store0 : List ModularResult)
    (hnd : (sizes_of store0).Nodup)
    (hsucc : ∀ n ∈ l, table_size_exists store0 n = false →
      ∃ row, (f n).bind save_result = some row ∧ row.table_size = n) :
    (collect_loop f l ⟨store0, 0, 0, false⟩).exited = false ∧
    (sizes_of (collect_loop f l ⟨store0, 0, 0, false⟩).store).Nodup ∧
    (∀ m, m ∈ sizes_of (collect_loop f l ⟨store0, 0, 0, false⟩).store ↔
      m ∈ sizes_of store0 ∨ m ∈ l) ∧
    ∃ new, (collect_loop f l ⟨store0, 0, 0, false⟩).store = store0 ++ new ∧
      ∀ r ∈ new, r.table_size ∈ l ∧ r.table_size ∉ sizes_of store0 :=
  collect_loop_resume f l ⟨store0, 0, 0, false⟩ hnd rfl hsucc

/-- C2 witness: resuming over `[5, 6]` against a store already holding
size 5, with an all-succeeding oracle: size 5 is skipped, size 6 is
recorded, and the final sizes are exactly `{5, 6}` without duplicates. -/
theorem resume_processes_witness :
    (sizes_of [sample_row 5]).Nodup ∧
    (sizes_of (collect_loop ok_oracle [5, 6] ⟨[sample_row 5], 0, 0, false⟩).store).Nodup ∧
    (∀ m, m ∈ sizes_of (collect_loop ok_oracle [5, 6] ⟨[sample_row 5], 0, 0, false⟩).store ↔
      m ∈ sizes_of [sample_row 5] ∨ m ∈ [5, 6]) := by
  have h := resume_processes_unset_sizes_amended ok_oracle [5, 6] [sample_row 5]
    (by decide)
    (by
      intro n hn hnot
      rcases List.mem_cons.mp hn with rfl | hn
      · exact absurd (by decide : table_size_exists [sample_row 5] 5 = true)
          (by rw [hnot]; exact Bool.false_ne_true)
      · rcases List.mem_cons.mp hn with rfl | hn
        · exact ⟨sample_row 6, rfl, rfl⟩
        · simp at hn)
  exact ⟨by decide, h.2.1, h.2.2.1⟩

/-- C2 counterexample: the claim says every size without an existing
Result is processed, but when size 6 fails mid-run the process exits and
size 7 — unrecorded, and with an invocation that would succeed — is never
processed: no row for it appears in the final store. -/
theorem resume_skips_after_failure :
    (7 : ℕ) ∈ [5, 6, 7] ∧
    (7 : ℕ) ∉ sizes_of [sample_row 5] ∧
    ((cex_oracle 7).bind save_result).isSome = true ∧
    (collect_loop cex_oracle [5, 6, 7] ⟨[sample_row 5], 0, 0, false⟩).exited = true ∧
    (7 : ℕ) ∉ sizes_of (collect_loop cex_oracle [5, 6, 7]
      ⟨[sample_row 5], 0, 0, false⟩).store := by
  refine ⟨by decide, by decide, by decide, by decide, by decide⟩

/-- Executable response with every required field present but with
`num_tests` and the `"abc"` test vector missing. -/
def missing_fields_json : TestJson :=
  { table_size := some 101, is_prime := some true, prime_high := some 7,
    prime_low := some 3, working_modulus := some 21, num_tests := none,
    unique_hashes := some 90, total_collisions := some 10,
    expected_collisions := some 10, collision_ratio := some 1,
    chi_square := some 1, avalanche_score := some (1/2),
    max_bucket_load := some 2, test_vectors_abc := none,
    performance_ns_per_hash := some 5, factors := some "" }

/-- C5 (amended): when the required fields are present `save_result`
records a Result even if `num_tests`, `is_prime` or the `"abc"` test
vector is missing — those are silently defaulted to `0`/`False` in the
recorded row; only a missing required field prevents a Result from being
recorded (by an uncaught `KeyError`, not a handled parse failure). -/
theorem save_result_defaults_missing_fields :
    (∀ data : TestJson, required_fields_present data →
      save_result data = some
        { table_size := data.table_size.getD 0
          is_prime := data.is_prime.getD false
          prime_high := data.prime_high.getD 0
          prime_low := data.prime_low.getD 0
          working_modulus := data.working_modulus.getD 0
          num_tests := data.num_tests.getD 0
          unique_hashes := data.unique_hashes.getD 0
          total_collisions := data.total_collisions.getD 0
          expected_collisions := data.expected_collisions.getD 0
          collision_ratio := data.collision_ratio.getD 0
          chi_square := data.chi_square.getD 0
          avalanche_score := data.avalanche_score.getD 0
          max_bucket_load := data.max_bucket_load.getD 0
          test_hash := data.test_vectors_abc.getD 0
          performance_ns := data.performance_ns_per_hash.getD 0
          factors := data.factors.getD "" }) ∧
    (∀ data : TestJson, ¬ required_fields_present data →
      save_result data = none) := by
  constructor
  · intro data h
    obtain ⟨ts, ip, ph, pl, wm, nt, uh, tc, ec, cr, cs, av, mb, tv, pn, fa⟩ := data
    obtain ⟨h1, h2, h3, h4, h5, h6, h7, h8, h9, h10, h11, h12, h13⟩ := h
    obtain ⟨v1, rfl⟩ := Option.isSome_iff_exists.mp h1
    obtain ⟨v2, rfl⟩ := Option.isSome_iff_exists.mp h2
    obtain ⟨v3, rfl⟩ := Option.isSome_iff_exists.mp h3
    obtain ⟨v4, rfl⟩ := Option.isSome_iff_exists.mp h4
    obtain ⟨v5, rfl⟩ := Option.isSome_iff_exists.mp h5
    obtain ⟨v6, rfl⟩ := Option.isSome_iff_exists.mp h6
    obtain ⟨v7, rfl⟩ := Option.isSome_iff_exists.mp h7
    obtain ⟨v8, rfl⟩ := Option.isSome_iff_exists.mp h8
    obtain ⟨v9, rfl⟩ := Option.isSome_iff_exists.mp h9
    obtain ⟨v10, rfl⟩ := Option.isSome_iff_exists.mp h10
    obtain ⟨v11, rfl⟩ := Option.isSome_iff_exists.mp h11
    obtain ⟨v12, rfl⟩ := Option.isSome_iff_exists.mp h12
    obtain ⟨v13, rfl⟩ := Option.isSome_iff_exists.mp h13
    rfl
  · intro data h
    obtain ⟨ts, ip, ph, pl, wm, nt, uh, tc, ec, cr, cs, av, mb, tv, pn, fa⟩ := data
    by_contra hne
    apply h
    cases ts with
    | none => exact absurd rfl hne
    | some v1 =>
      cases ph with
      | none => exact absurd rfl hne
      | some v2 =>
        cases pl with
        | none => exact absurd rfl hne
        | some v3 =>
          cases wm with
          | none => exact absurd rfl hne
          | some v4 =>
            cases uh with
            | none => exact absurd rfl hne
            | some v5 =>
              cases tc with
              | none => exact absurd rfl hne
              | some v6 =>
                cases ec with
                | none => exact absurd rfl hne
                | some v7 =>
                  cases cr with
                  | none => exact absurd rfl hne
                  | some v8 =>
                    cases cs with
                    | none => exact absurd rfl hne
                    | some v9 =>
                      cases av with
                      | none => exact absurd rfl hne
                      | some v10 =>
                        cases mb with
                        | none => exact absurd rfl hne
                        | some v11 =>
                          cases pn with
                          | none => exact absurd rfl hne
                          | some v12 =>
                            cases fa with
                            | none => exact absurd rfl hne
                            | some v13 =>
                              exact ⟨rfl, rfl, rfl, rfl, rfl, rfl, rfl,
                                rfl, rfl, rfl, rfl, rfl, rfl⟩

/-- C5 witness: a response missing only `num_tests` and the test vector
has all required fields, and `save_result` still records a row. -/
theorem save_result_defaults_witness :
    required_fields_present missing_fields_json ∧
    save_result missing_fields_json = some
      { table_size := missing_fields_json.table_size.getD 0
        is_prime := missing_fields_json.is_prime.getD false
        prime_high := missing_fields_json.prime_high.getD 0
        prime_low := missing_fields_json.prime_low.getD 0
        working_modulus := missing_fields_json.working_modulus.getD 0
        num_tests := missing_fields_json.num_tests.getD 0
        unique_hashes := missing_fields_json.unique_hashes.getD 0
        total_collisions := missing_fields_json.total_collisions.getD 0
        expected_collisions := missing_fields_json.expected_collisions.getD 0
        collision_ratio := missing_fields_json.collision_ratio.getD 0
        chi_square := missing_fields_json.chi_square.getD 0
        avalanche_score := missing_fields_json.avalanche_score.getD 0
        max_bucket_load := missing_fields_json.max_bucket_load.getD 0
        test_hash := missing_fields_json.test_vectors_abc.getD 0
        performance_ns := missing_fields_json.performance_ns_per_hash.getD 0
        factors := missing_fields_json.factors.getD "" } :=
  ⟨by decide,
    save_result_defaults_missing_fields.1 missing_fields_json (by decide)⟩

/-- C5 counterexample: the claim says a missing field is never replaced
by a default of zero in a recorded Result, but with `num_tests` and the
test vector absent a Result is still recorded, carrying `num_tests = 0`
and `test_hash = 0`. -/
theorem save_result_records_zero_defaults :
    missing_fields_json.num_tests = none ∧
    missing_fields_json.test_vectors_abc = none ∧
    ∃ row, save_result missing_fields_json = some row ∧
      row.num_tests = 0 ∧ row.test_hash = 0 := by
  refine ⟨rfl, rfl, ?_⟩
  exact ⟨_, rfl, rfl, rfl⟩

lemma mem_generate_all_test_sizes (rand : List ℕ) (x : ℕ) :
    x ∈ generate_all_test_sizes rand ↔
      x ∈ massive_det_sizes ∨ x ∈ rand := by
  simp [generate_all_test_sizes, Finset.mem_sort, List.mem_toFinset,
    List.mem_append]

lemma not_mem_massive_det_999983 : (999983 : ℕ) ∉ massive_det_sizes := by
  intro h
  unfold massive_det_sizes at h
  rcases List.mem_append.mp h with h | h
  · rcases List.mem_append.mp h with h | h
    · have hb := List.mem_range'_1.mp (List.mem_filter.mp h).1
      omega
    · revert h
      decide
  · revert h
    decide

/-- C6 counterexample: both draw sequences are legal outputs of 1000
calls of `random.randint(100, 1000000)`, yet the two invocations of
`generate_all_test_sizes` produce different lists — the generator of
`run_massive_test.py` is not deterministic across invocations because it
consumes the unseeded process RNG. -/
theorem generator_not_deterministic :
    (List.replicate 1000 999983).all (fun x => 100 ≤ x && x ≤ 1000000) = true ∧
    (List.replicate 1000 100).all (fun x => 100 ≤ x && x ≤ 1000000) = true ∧
    generate_all_test_sizes (List.replicate 1000 999983) ≠
      generate_all_test_sizes (List.replicate 1000 100) := by
  have hall : ∀ v : ℕ, 100 ≤ v → v ≤ 1000000 →
      (List.replicate 1000 v).all (fun x => 100 ≤ x && x ≤ 1000000) = true := by
    intro v h1 h2
    rw [List.all_eq_true]
    intro x hx
    rw [List.mem_replicate] at hx
    rw [hx.2]
    simp only [Bool.and_eq_true, decide_eq_true_eq]
    exact ⟨h1, h2⟩
  refine ⟨hall _ (by norm_num) (by norm_num), hall _ (by norm_num) (by norm_num),
    fun heq => ?_⟩
  have h1 : (999983 : ℕ) ∈ generate_all_test_sizes (List.replicate 1000 999983) :=
    (mem_generate_all_test_sizes _ _).mpr
      (Or.inr (List.mem_replicate.mpr ⟨by norm_num, rfl⟩))
  rw [heq] at h1
  rcases (mem_generate_all_test_sizes _ _).mp h1 with h | h
  · exact not_mem_massive_det_999983 h
  · rw [List.mem_replicate] at h
    omega

/-- C6 (amended): `generate_test_sizes` of
`generate_comprehensive_tests.py` is a pure constant — identical bounds
always give bit-identical output — and that output is strictly sorted and
duplicate-free; `generate_all_test_sizes` of `run_massive_test.py` also
always returns a strictly sorted duplicate-free list, but its content
depends on the unseeded RNG draws, so two invocations need not agree
(see the counterexample). -/
theorem generator_output_sorted_nodup :
    List.Sorted (· < ·) generate_test_sizes ∧ generate_test_sizes.Nodup ∧
    ∀ rand : List ℕ, List.Sorted (· < ·) (generate_all_test_sizes rand) ∧
      (generate_all_test_sizes rand).Nodup := by
  have hsorted : List.Sorted (· < ·) generate_test_sizes := by
    unfold generate_test_sizes
    exact (Finset.sort_sorted_lt _).filter _
  refine ⟨hsorted, hsorted.nodup, fun rand => ?_⟩
  have h2 : List.Sorted (· < ·) (generate_all_test_sizes rand) :=
    Finset.sort_sorted_lt _
  exact ⟨h2, h2.nodup⟩

lemma except_ok_bind {ε α β : Type} (a : α) (f : α → Except ε β) :
    (Except.ok a : Except ε α) >>= f = f a := rfl

lemma py_div_ok (a b : ℚ) (h : b ≠ 0) : py_div a b = .ok (a / b) := by
  unfold py_div
  rw [if_neg h]

lemma length_cast_ne_zero (data : List ModularResult) (h : data ≠ []) :
    ((data.length : ℚ)) ≠ 0 :=
  Nat.cast_ne_zero.mpr (List.length_pos.mpr h).ne'

lemma good_avalanche_pct_ok (data : List ModularResult) (h : data ≠ []) :
    good_avalanche_pct data
      = .ok ((good_avalanche_count data : ℚ) / data.length * 100) := by
  unfold good_avalanche_pct
  rw [py_div_ok _ _ (length_cast_ne_zero data h)]
  rfl

lemma good_chi_pct_ok (data : List ModularResult) (h : data ≠ []) :
    good_chi_pct data = .ok ((good_chi_count data : ℚ) / data.length * 100) := by
  unfold good_chi_pct
  rw [py_div_ok _ _ (length_cast_ne_zero data h)]
  rfl

lemma good_collision_pct_ok (data : List ModularResult) (h : data ≠ []) :
    good_collision_pct data
      = .ok ((good_collision_count data : ℚ) / data.length * 100) := by
  unfold good_collision_pct
  rw [py_div_ok _ _ (length_cast_ne_zero data h)]
  rfl

lemma analyze_modular_data_cons (x : ModularResult) (xs : List ModularResult) :
    analyze_modular_data (x :: xs) = .ok
      { total := (x :: xs).length
        prime_count := ((x :: xs).filter (fun r => r.is_prime)).length
        composite_count := ((x :: xs).filter (fun r => !r.is_prime)).length
        avalanche_mean := np_mean ((x :: xs).map (fun r => r.avalanche_score))
        avalanche_min :=
          (xs.map (fun r => r.avalanche_score)).foldl min x.avalanche_score
        avalanche_max :=
          (xs.map (fun r => r.avalanche_score)).foldl max x.avalanche_score
        chi_mean := np_mean ((x :: xs).map (fun r => r.chi_square))
        chi_min := (xs.map (fun r => r.chi_square)).foldl min x.chi_square
        chi_max := (xs.map (fun r => r.chi_square)).foldl max x.chi_square
        collision_mean := np_mean ((x :: xs).map (fun r => r.collision_ratio))
        collision_min :=
          (xs.map (fun r => r.collision_ratio)).foldl min x.collision_ratio
        collision_max :=
          (xs.map (fun r => r.collision_ratio)).foldl max x.collision_ratio
        prime_avalanche_mean :=
          np_mean (((x :: xs).filter (fun r => r.is_prime)).map
            (fun r => r.avalanche_score))
        composite_avalanche_mean :=
          np_mean (((x :: xs).filter (fun r => !r.is_prime)).map
            (fun r => r.avalanche_score))
        avalanche_pass_pct :=
          (good_avalanche_count (x :: xs) : ℚ) / (x :: xs).length * 100
        chi_pass_pct := (good_chi_count (x :: xs) : ℚ) / (x :: xs).length * 100
        collision_pass_pct :=
          (good_collision_count (x :: xs) : ℚ) / (x :: xs).length * 100
        problem_sizes :=
          ((x :: xs).filter (fun r =>
            r.avalanche_score < 0.3 || r.avalanche_score > 0.7 ||
            r.chi_square < 0.5 || r.chi_square > 2.0 ||
            r.collision_ratio > 2.0)).map (fun r => r.table_size)
        range_avalanche_means :=
          analysis_ranges.map (fun p =>
            (p.1, p.2,
              np_mean (((x :: xs).filter (fun r =>
                p.1 ≤ r.table_size && r.table_size < p.2)).map
                (fun r => r.avalanche_score)))) } := by
  have hne : x :: xs ≠ [] := List.cons_ne_nil x xs
  unfold analyze_modular_data
  rw [good_avalanche_pct_ok _ hne, good_chi_pct_ok _ hne,
    good_collision_pct_ok _ hne]
  simp only [List.map_cons, np_min, np_max, except_ok_bind]
  rfl

/-- Synthetic dataset of 100 Results of which exactly the first 45 have
`avalanche_score` inside `[0.45, 0.55]`. -/
def band_rows : List ModularResult :=
  List.replicate 45 (sample_row 1) ++
    List.replicate 55 { sample_row 2 with avalanche_score := 7/10 }

/-- C7: each quality pass rate reported by the Analyzer is the count of
Results inside the configured good band (avalanche in `[0.45, 0.55]`,
chi-square in `[0.9, 1.1]`, collision ratio `≤ 1.2`) divided by the total
number of Results, times 100; in particular a dataset of 100 Results with
exactly 45 in the avalanche band is reported as 45%. -/
theorem quality_pass_rates (data : List ModularResult) (h : data ≠ []) :
    good_avalanche_pct data
      = .ok (100 * (good_avalanche_count data : ℚ) / data.length) ∧
    good_chi_pct data = .ok (100 * (good_chi_count data : ℚ) / data.length) ∧
    good_collision_pct data
      = .ok (100 * (good_collision_count data : ℚ) / data.length) ∧
    (data.length = 100 → good_avalanche_count data = 45 →
      ∃ rep, analyze_modular_data data = .ok rep ∧
        rep.avalanche_pass_pct = 45) := by
  refine ⟨?_, ?_, ?_, ?_⟩
  · rw [good_avalanche_pct_ok data h]
    congr 1
    ring
  · rw [good_chi_pct_ok data h]
    congr 1
    ring
  · rw [good_collision_pct_ok data h]
    congr 1
    ring
  · intro hlen hcount
    obtain ⟨x, xs, rfl⟩ := List.exists_cons_of_ne_nil h
    refine ⟨_, analyze_modular_data_cons x xs, ?_⟩
    rw [hlen, hcount]
    norm_num

lemma countP_replicate_rat (p : ℚ → Bool) (n : ℕ) (a : ℚ) :
    (List.replicate n a).countP p = if p a then n else 0 := by
  induction n with
  | zero => simp
  | succ n ih =>
    rw [List.replicate_succ, List.countP_cons, ih]
    split_ifs <;> omega

lemma band_rows_ne_nil : band_rows ≠ [] :=
  List.length_pos.mp (by simp [band_rows])

lemma band_rows_length : band_rows.length = 100 := by
  simp [band_rows]

lemma band_rows_count : good_avalanche_count band_rows = 45 := by
  unfold good_avalanche_count band_rows
  rw [List.map_append, List.countP_append, List.map_replicate,
    List.map_replicate, countP_replicate_rat, countP_replicate_rat]
  have h1 : (decide ((0.45 : ℚ) ≤ (sample_row 1).avalanche_score) &&
      decide ((sample_row 1).avalanche_score ≤ (0.55 : ℚ))) = true := by
    simp only [Bool.and_eq_true, decide_eq_true_eq, sample_row]
    norm_num
  have h2 : (decide ((0.45 : ℚ) ≤
        ({ sample_row 2 with avalanche_score := 7/10 } :
          ModularResult).avalanche_score) &&
      decide (({ sample_row 2 with avalanche_score := 7/10 } :
          ModularResult).avalanche_score ≤ (0.55 : ℚ))) = false := by
    simp only [Bool.and_eq_false_eq_eq_false_or_eq_false, decide_eq_false_iff_not,
      sample_row]
    norm_num
  rw [h1, h2]
  norm_num

/-- C7 witness: the synthetic 45-of-100 dataset is reported at exactly
45%. -/
theorem quality_pass_rates_witness :
    band_rows ≠ [] ∧ band_rows.length = 100 ∧
    good_avalanche_count band_rows = 45 ∧
    ∃ rep, analyze_modular_data band_rows = .ok rep ∧
      rep.avalanche_pass_pct = 45 :=
  ⟨band_rows_ne_nil, band_rows_length, band_rows_count,
    (quality_pass_rates band_rows band_rows_ne_nil).2.2.2
      band_rows_length band_rows_count⟩

/-- C9 (amended): the Analyzer is a pure read — it computes its report
from the fetched rows alone and returns them unchanged — and it succeeds
on every nonempty (in particular partially-populated) store; on an empty
store, however, it fails with the empty-reduction error of `np.min`
rather than reporting zero/NaN (see the counterexample). -/
theorem analyzer_succeeds_on_nonempty_store (data : List ModularResult)
    (h : data ≠ []) :
    ∃ rep, analyze_modular_data data = .ok rep := by
  obtain ⟨x, xs, rfl⟩ := List.exists_cons_of_ne_nil h
  exact ⟨_, analyze_modular_data_cons x xs⟩

/-- C9 witness: a one-row store is analysed without failure. -/
theorem analyzer_succeeds_witness :
    [sample_row 5] ≠ [] ∧
    ∃ rep, analyze_modular_data [sample_row 5] = .ok rep :=
  ⟨by decide, analyzer_succeeds_on_nonempty_store [sample_row 5] (by decide)⟩

/-- C9 counterexample: on an empty store the Analyzer raises (the
`ValueError` of `np.min` on a zero-size array, line 64 of
`analyze_modular_results.py`) instead of reporting zero/NaN values. -/
theorem analyzer_fails_on_empty_store :
    analyze_modular_data [] = .error .emptyReduction := rfl

/-- Store row with a fixed duplicated sentinel hash. -/
def dup_row (n : ℕ) : ModularResult := { sample_row n with test_hash := 42 }

/-- C8 counterexample: the three prime sizes 101, 107, 113 share one
sentinel hash; adjacent gaps are 6 ≤ 10, so the source flags the group
(`consecutive_prime_dups = 1`), yet the members are not mutually within
distance 10 (113 − 101 = 12), contradicting the claim that the flag tests
mutual distance. -/
theorem duplicate_flag_counterexample :
    consecutive_prime_dups [dup_row 101, dup_row 107, dup_row 113] = 1 ∧
    ((duplicate_groups [dup_row 101, dup_row 107, dup_row 113]).filter
      group_flagged).all group_mutually_close = false :=
  ⟨by decide, by decide⟩

/-- C8 (amended): groups are formed by sentinel hash; a group of more
than one row is reported, and it is flagged when all members carry the
prime flag and each adjacent pair of sizes (in stored ascending order) is
within distance 10 — not every mutual pair.  In particular any two rows
with prime sizes 1009 and 1013 and an identical sentinel hash form one
reported group and are flagged. -/
theorem duplicate_pair_flagged (r1 r2 : ModularResult)
    (h1 : r1.table_size = 1009) (h2 : r2.table_size = 1013)
    (h3 : r1.is_prime = true) (h4 : r2.is_prime = true)
    (h5 : r1.test_hash = r2.test_hash) :
    duplicate_groups [r1, r2] = [(r1.test_hash, [r1, r2])] ∧
    consecutive_prime_dups [r1, r2] = 1 := by
  have hd : duplicate_groups [r1, r2] = [(r1.test_hash, [r1, r2])] := by
    unfold duplicate_groups hash_groups
    simp [add_to_hash_groups, h5]
  refine ⟨hd, ?_⟩
  unfold consecutive_prime_dups
  rw [hd]
  simp [group_flagged, group_all_prime, group_consecutive, group_sizes,
    h1, h2, h3, h4]

/-- C8 witness: two concrete rows with sizes 1009 and 1013 and hash 42
are reported and flagged. -/
theorem duplicate_pair_flagged_witness :
    (dup_row 1009).table_size = 1009 ∧ (dup_row 1013).table_size = 1013 ∧
    (dup_row 1009).is_prime = true ∧ (dup_row 1013).is_prime = true ∧
    (dup_row 1009).test_hash = (dup_row 1013).test_hash ∧
    consecutive_prime_dups [dup_row 1009, dup_row 1013] = 1 :=
  ⟨rfl, rfl, rfl, rfl, rfl,
    (duplicate_pair_flagged (dup_row 1009) (dup_row 1013)
      rfl rfl rfl rfl rfl).2⟩

lemma refine_tests_step_up (n c : ℕ) (fuel : ℕ) (t : ℤ)
    (h : expected_collisions_model n (t : ℝ) < 0.9 * c) :
    refine_tests n c (fuel + 1) t
      = refine_tests n c fuel (py_trunc ((t : ℝ) * 1.1)) := by
  simp only [refine_tests]
  rw [if_pos h]

lemma refine_tests_step_break (n c : ℕ) (fuel : ℕ) (t : ℤ)
    (h1 : ¬ expected_collisions_model n (t : ℝ) < 0.9 * c)
    (h2 : ¬ expected_collisions_model n (t : ℝ) > 1.1 * c) :
    refine_tests n c (fuel + 1) t = (t, false) := by
  simp only [refine_tests]
  rw [if_neg h1, if_neg h2]

lemma refine_tests_band_of_break (n c : ℕ) :
    ∀ (fuel : ℕ) (t : ℤ), (refine_tests n c fuel t).2 = false →
      0.9 * c ≤ expected_collisions_model n ((refine_tests n c fuel t).1 : ℝ) ∧
      expected_collisions_model n ((refine_tests n c fuel t).1 : ℝ) ≤ 1.1 * c := by
  intro fuel
  induction fuel with
  | zero =>
    intro t h
    simp [refine_tests] at h
  | succ fuel ih =>
    intro t h
    by_cases h1 : expected_collisions_model n (t : ℝ) < 0.9 * c
    · rw [refine_tests_step_up n c fuel t h1] at h ⊢
      exact ih _ h
    · by_cases h2 : expected_collisions_model n (t : ℝ) > 1.1 * c
      · have hstep : refine_tests n c (fuel + 1) t
            = refine_tests n c fuel (py_trunc ((t : ℝ) * 0.95)) := by
          simp only [refine_tests]
          rw [if_neg h1, if_pos h2]
        rw [hstep] at h ⊢
        exact ih _ h
      · rw [refine_tests_step_break n c fuel t h1 h2] at h ⊢
        exact ⟨le_of_not_lt h1, le_of_not_lt h2⟩

/-- C3 (amended): for `0 < C < N` the calculator either reached its
10-iteration cap, or returned the floor value 100 (`max(tests, 100)`
applied to a smaller converged `tests`), or returned a `T` whose expected
collision count is within 10% of the target. -/
theorem calculator_band_or_floor (n c : ℕ) (hc : 0 < c) (hn : c < n) :
    tests_cap_reached n c = true ∨
    calculate_tests_for_collisions n c = 100 ∨
    |expected_collisions_model n ((calculate_tests_for_collisions n c : ℤ) : ℝ) - c| / c
      ≤ 1 / 10 := by
  have hge : ¬ (c ≥ n) := not_le.mpr hn
  unfold calculate_tests_for_collisions tests_cap_reached
  rw [if_neg hge, if_neg hge]
  rcases hflag : (refine_tests n c 10
      (py_trunc (Real.sqrt ((2 * n * c : ℕ) : ℝ)))).2 with _ | _
  · have hband := refine_tests_band_of_break n c 10
      (py_trunc (Real.sqrt ((2 * n * c : ℕ) : ℝ))) hflag
    rcases le_or_lt 100 (refine_tests n c 10
        (py_trunc (Real.sqrt ((2 * n * c : ℕ) : ℝ)))).1 with hge100 | hlt100
    · right; right
      rw [max_eq_left hge100]
      have hc0 : (0 : ℝ) < c := by exact_mod_cast hc
      rw [div_le_iff₀ hc0]
      rw [abs_le]
      constructor <;> nlinarith [hband.1, hband.2]
    · right; left
      rw [max_eq_right hlt100.le]
  · left
    rfl

/-- C3 amended-theorem witness at `N = 200`, `C = 10`. -/
theorem calculator_band_or_floor_witness :
    0 < 10 ∧ 10 < 200 ∧
    (tests_cap_reached 200 10 = true ∨
     calculate_tests_for_collisions 200 10 = 100 ∨
     |expected_collisions_model 200 ((calculate_tests_for_collisions 200 10 : ℤ) : ℝ) - 10| / 10
       ≤ 1 / 10) :=
  ⟨by norm_num, by norm_num,
    calculator_band_or_floor 200 10 (by norm_num) (by norm_num)⟩

lemma exp_63_200_lower : (100 : ℝ) / 73 < Real.exp (63 / 200) := by
  have hsum := Real.sum_le_exp_of_nonneg
    (x := (63 : ℝ) / 200) (by norm_num) 5
  refine lt_of_lt_of_le ?_ hsum
  norm_num [Finset.sum_range_succ, Nat.factorial]

lemma exp_69_200_lower : (100 : ℝ) / 71 < Real.exp (69 / 200) := by
  have hsum := Real.sum_le_exp_of_nonneg
    (x := (69 : ℝ) / 200) (by norm_num) 4
  refine lt_of_lt_of_le ?_ hsum
  norm_num [Finset.sum_range_succ, Nat.factorial]

lemma exp_69_200_upper : Real.exp (69 / 200) < 10 / 7 := by
  have hb := Real.exp_bound' (x := (69 : ℝ) / 200) (by norm_num) (by norm_num)
    (n := 4) (by norm_num)
  refine lt_of_le_of_lt hb ?_
  norm_num [Finset.sum_range_succ, Nat.factorial]

lemma exp_half_upper : Real.exp (1 / 2) < 200 / 111 := by
  have hsq : Real.exp (1 / 2) ^ 2 = Real.exp 1 := by
    rw [sq, ← Real.exp_add]
    norm_num
  have hlt : Real.exp (1 / 2) ^ 2 < (200 / 111 : ℝ) ^ 2 := by
    rw [hsq]
    calc Real.exp 1 < 2.7182818286 := Real.exp_one_lt_d9
      _ < (200 / 111 : ℝ) ^ 2 := by norm_num
  exact lt_of_pow_lt_pow_left₀ 2 (by norm_num) hlt

lemma ec_63_low : expected_collisions_model 200 ((63 : ℤ) : ℝ) < 0.9 * 10 := by
  unfold expected_collisions_model
  have hv : Real.exp (-((63 : ℝ) / 200)) < 73 / 100 := by
    rw [Real.exp_neg]
    have hinv : (Real.exp ((63 : ℝ) / 200))⁻¹ < ((100 : ℝ) / 73)⁻¹ :=
      inv_strictAnti₀ (by norm_num) exp_63_200_lower
    calc (Real.exp ((63 : ℝ) / 200))⁻¹ < ((100 : ℝ) / 73)⁻¹ := hinv
      _ = 73 / 100 := by norm_num
  push_cast
  nlinarith [hv]

lemma ec_69_not_low : ¬ expected_collisions_model 200 ((69 : ℤ) : ℝ) < 0.9 * 10 := by
  unfold expected_collisions_model
  have hv : (7 : ℝ) / 10 < Real.exp (-((69 : ℝ) / 200)) := by
    rw [Real.exp_neg]
    have hinv : ((10 : ℝ) / 7)⁻¹ < (Real.exp ((69 : ℝ) / 200))⁻¹ :=
      inv_strictAnti₀ (Real.exp_pos _) exp_69_200_upper
    calc (7 : ℝ) / 10 = ((10 : ℝ) / 7)⁻¹ := by norm_num
      _ < _ := hinv
  push_cast
  intro hcon
  nlinarith [hv]

lemma ec_69_not_high : ¬ expected_collisions_model 200 ((69 : ℤ) : ℝ) > 1.1 * 10 := by
  unfold expected_collisions_model
  have hv : Real.exp (-((69 : ℝ) / 200)) < 71 / 100 := by
    rw [Real.exp_neg]
    have hinv : (Real.exp ((69 : ℝ) / 200))⁻¹ < ((100 : ℝ) / 71)⁻¹ :=
      inv_strictAnti₀ (by norm_num) exp_69_200_lower
    calc (Real.exp ((69 : ℝ) / 200))⁻¹ < ((100 : ℝ) / 71)⁻¹ := hinv
      _ = 71 / 100 := by norm_num
  push_cast
  intro hcon
  nlinarith [hv]

lemma trunc_63_up : py_trunc (((63 : ℤ) : ℝ) * 1.1) = 69 := by
  unfold py_trunc
  rw [if_pos (by push_cast; norm_num)]
  rw [Int.floor_eq_iff]
  constructor <;> push_cast <;> norm_num

lemma trunc_sqrt_4000 : py_trunc (Real.sqrt ((2 * 200 * 10 : ℕ) : ℝ)) = 63 := by
  have h4 : ((2 * 200 * 10 : ℕ) : ℝ) = 4000 := by norm_num
  rw [h4]
  unfold py_trunc
  rw [if_pos (Real.sqrt_nonneg _)]
  rw [Int.floor_eq_iff]
  constructor
  · push_cast
    exact (Real.le_sqrt (by norm_num) (by norm_num)).mpr (by norm_num)
  · push_cast
    exact (Real.sqrt_lt' (by norm_num)).mpr (by norm_num)

lemma refine_eval_200_10 : refine_tests 200 10 10 63 = (69, false) := by
  rw [show (10 : ℕ) = 9 + 1 from rfl, refine_tests_step_up 200 10 9 63 ec_63_low,
    trunc_63_up, show (9 : ℕ) = 8 + 1 from rfl,
    refine_tests_step_break 200 10 8 69 ec_69_not_low ec_69_not_high]

/-- C3 counterexample: at `N = 200`, `C = 10` (so `0 < C < N`), the loop
converges in two iterations to `tests = 69` — the cap is not reached —
but the returned value is `max(69, 100) = 100`, whose expected collision
count `100 − 200·(1 − e^(−1/2)) ≈ 21.3` misses the target 10 by more than
the claimed 10% tolerance. -/
theorem calculator_floor_breaks_tolerance :
    0 < 10 ∧ 10 < 200 ∧
    calculate_tests_for_collisions 200 10 = 100 ∧
    tests_cap_reached 200 10 = false ∧
    ¬ (|expected_collisions_model 200 ((calculate_tests_for_collisions 200 10 : ℤ) : ℝ) - 10| / 10
      ≤ 1 / 10) := by
  have hge : ¬ ((10 : ℕ) ≥ 200) := by norm_num
  have hcalc : calculate_tests_for_collisions 200 10 = 100 := by
    unfold calculate_tests_for_collisions
    rw [if_neg hge, trunc_sqrt_4000, refine_eval_200_10]
    rfl
  have hcap : tests_cap_reached 200 10 = false := by
    unfold tests_cap_reached
    rw [if_neg hge, trunc_sqrt_4000, refine_eval_200_10]
  refine ⟨by norm_num, by norm_num, hcalc, hcap, ?_⟩
  rw [hcalc]
  have hE : 11 < expected_collisions_model 200 ((100 : ℝ)) := by
    unfold expected_collisions_model
    have hu : (111 : ℝ) / 200 < Real.exp (-((1 : ℝ) / 2)) := by
      rw [Real.exp_neg]
      have hinv : ((200 : ℝ) / 111)⁻¹ < (Real.exp ((1 : ℝ) / 2))⁻¹ :=
        inv_strictAnti₀ (Real.exp_pos _) exp_half_upper
      calc (111 : ℝ) / 200 = ((200 : ℝ) / 111)⁻¹ := by norm_num
        _ < _ := hinv
    push_cast
    have harg : -((100 : ℝ) / 200) = -((1 : ℝ) / 2) := by norm_num
    rw [harg]
    nlinarith [hu]
  intro hcon
  push_cast at hcon
  have habs : |expected_collisions_model 200 ((100 : ℝ)) - 10|
      = expected_collisions_model 200 ((100 : ℝ)) - 10 :=
    abs_of_pos (by linarith)
  rw [habs] at hcon
  have h3 : expected_collisions_model 200 ((100 : ℝ)) - 10 ≤ 1 := by
    have hbound := (div_le_iff₀ (show (0 : ℝ) < 10 by norm_num)).mp hcon
    norm_num at hbound
    linarith
  linarith
